import Mathlib

/-!
Verification of the Data Profiling, Validation & Consolidation Core of the
LUFT repository: a shallow embedding in Lean 4 of

  * `capsule_index_job.py` (capsule manifest merge), and
  * `scripts/data_intake_v0.7.0.py` (type inference, statistical profiling,
    threshold validation),

together with proofs settling the specification claims about them.
Python machine floats are modelled by exact rationals (ℚ), Python strings by
Lean strings compared code-point-wise, Python dicts with optional keys by
structures with `Option` fields, and Python sets by `Finset`.
-/

/-! ## Python string comparison

Python compares strings lexicographically by code point.  The embedding uses
its own structurally recursive comparison so that it evaluates inside the
kernel. -/

/-- Code-point order on characters, as Python compares them. -/
def chLt (a b : Char) : Bool := a.toNat < b.toNat

/-- Lexicographic order on character lists, as Python's `<` on `str`. -/
def strLtAux : List Char → List Char → Bool
  | [], [] => false
  | [], _ :: _ => true
  | _ :: _, [] => false
  | a :: as, b :: bs =>
      if chLt a b then true
      else if chLt b a then false
      else strLtAux as bs

/-- Python `a < b` on strings. -/
def pyStrLt (a b : String) : Bool := strLtAux a.toList b.toList

/-! ## Capsule merge (`capsule_index_job.py`)

A capsule is a dict; the four required keys may be absent, so they are
`Option`-valued.  `tags` is read with `capsule.get("tags", [])` and then made
into a set, so an absent key and an empty set are indistinguishable and the
field is a `Finset` directly.  Fields beyond the ones the merge reads are
passthrough data and are not modelled. -/

structure CapsuleDict where
  capsule_id : Option String
  timestamp_utc : Option String
  status : Option String
  hash : Option String
  tags : Finset String
deriving DecidableEq

/-- Embeds `validate_schema`: all four required fields are present
(`capsule_index_job.py`, lines 20-22). -/
def validate_schema (c : CapsuleDict) : Bool :=
  c.capsule_id.isSome && c.timestamp_utc.isSome && c.status.isSome && c.hash.isSome

/-- A master-index entry: the winning capsule plus the provenance keys added
by `{**capsule, "source_repo": repo, "manifest_path": path}`. -/
structure Entry where
  capsule : CapsuleDict
  source_repo : String
  manifest_path : String
deriving DecidableEq

/-- One element of `all_capsules`: a `(capsule, repo, path)` triple. -/
abbrev MergeItem := CapsuleDict × String × String

/-- The identifier the merge keys on: `capsule["capsule_id"]`.  The merge is
only ever fed schema-validated capsules, for which the field is present; the
`getD ""` default keeps the embedding total. -/
def itemCid (it : MergeItem) : String := (it.1.capsule_id).getD ""

/-- The entry built from a fresh item:
`{**capsule, "source_repo": repo, "manifest_path": path}`. -/
def mkEntry (it : MergeItem) : Entry := ⟨it.1, it.2.1, it.2.2⟩

/-- Conflict resolution between the current winner and a candidate with the
same id (`merge_capsules`, lines 31-38): a green candidate beats a non-green
winner outright; otherwise a lexicographically earlier `timestamp_utc` beats
the winner outright; otherwise the winner is kept and only its tags become
the union with the candidate's. -/
def resolveEntry (existing : Entry) (it : MergeItem) : Entry :=
  if it.1.status.getD "" = "green" ∧ existing.capsule.status.getD "" ≠ "green" then
    mkEntry it
  else if pyStrLt (it.1.timestamp_utc.getD "") (existing.capsule.timestamp_utc.getD "") then
    mkEntry it
  else
    { existing with capsule := { existing.capsule with tags := existing.capsule.tags ∪ it.1.tags } }

/-- One iteration of the `for capsule, repo, path in all_capsules` loop of
`merge_capsules`, acting on the master index (modelled as a map from id to
an optional entry). -/
def merge_step (mi : String → Option Entry) (it : MergeItem) : String → Option Entry :=
  let cid := itemCid it
  match mi cid with
  | none => fun s => if s = cid then some (mkEntry it) else mi s
  | some existing => fun s => if s = cid then some (resolveEntry existing it) else mi s

/-- Embeds `merge_capsules` (`capsule_index_job.py`, lines 24-39): fold all items
into an initially empty master index. -/
def merge_capsules (l : List MergeItem) : String → Option Entry :=
  l.foldl merge_step (fun _ => none)

/-- The admission pipeline of `main` (lines 54-60): only schema-validated
capsules reach `merge_capsules`. -/
def build_master_index (l : List MergeItem) : String → Option Entry :=
  merge_capsules (l.filter (fun it => validate_schema it.1))

/-! Specification-side description of the merge, used to compare the code
against the per-identifier fold the spec describes (claim C3). -/

/-- Stated from the specification's words: a later record replaces the winner
entirely when its status is green and the winner's is not; otherwise replaces
it entirely when its timestamp lexicographically precedes the winner's;
otherwise the winner is kept and only its tags become the union. -/
def specWinnerStep (w : Entry) (it : MergeItem) : Entry :=
  if it.1.status.getD "" = "green" ∧ w.capsule.status.getD "" ≠ "green" then
    mkEntry it
  else if pyStrLt (it.1.timestamp_utc.getD "") (w.capsule.timestamp_utc.getD "") then
    mkEntry it
  else
    { w with capsule := { w.capsule with tags := w.capsule.tags ∪ it.1.tags } }

/-- Stated from the specification's words: per identifier, the first record
seen becomes the winner unconditionally and each later record is folded in
with `specWinnerStep`. -/
def specMergePerId (l : List MergeItem) : Option Entry :=
  match l with
  | [] => none
  | it :: rest => some (rest.foldl specWinnerStep (mkEntry it))

/-- Auxiliary fold used to relate `merge_capsules` to `specMergePerId`:
fold a list of same-id items into an optional current winner. -/
def foldWinnerFrom (o : Option Entry) (l : List MergeItem) : Option Entry :=
  l.foldl
    (fun acc it =>
      match acc with
      | none => some (mkEntry it)
      | some w => some (specWinnerStep w it)) o

/-! Concrete capsules for the merge claims (the spec's Scenario 3 pair). -/

/-- Scenario 3 green capsule: later timestamp, status green. -/
def capGreen : CapsuleDict :=
  ⟨some "c1", some "2025-01-03T00:00:00Z", some "green", some "h2", ∅⟩

/-- Scenario 3 pending capsule: earlier timestamp, status pending. -/
def capPending : CapsuleDict :=
  ⟨some "c1", some "2025-01-02T00:00:00Z", some "pending", some "h1", ∅⟩

/-- Merge item wrapping `capGreen`. -/
def itemGreen : MergeItem := (capGreen, "repoA", "pathA")

/-- Merge item wrapping `capPending`. -/
def itemPending : MergeItem := (capPending, "repoB", "pathB")

/-- A capsule with the required `hash` field missing (Scenario 4). -/
def capNoHash : CapsuleDict :=
  ⟨some "c1", some "2025-01-02T00:00:00Z", some "green", none, ∅⟩

/-! ## Row model (`data_intake_v0.7.0.py`)

A row is a mapping from field name to raw text value; `row.get(field, '')`
returns `''` when the key is absent, and Python truthiness of the value is
non-emptiness of the string (an absent key, being `None`, is falsy too, so
the `getD ""` default is observationally faithful). -/

/-- One CSV row: an association list from field name to raw text value. -/
abbrev Row := List (String × String)

/-- Python `row.get(field, '')`. -/
def rowGet (r : Row) (field : String) : String :=
  match r.find? (fun p => p.1 == field) with
  | some p => p.2
  | none => ""

/-! ## Python `float()` on the decimal fragment

The intake scripts feed `float()` raw CSV text.  The embedding parses the
decimal fragment Python accepts — optional sign, digits with an optional
point, optional exponent, surrounding whitespace — into an exact rational.
The special tokens `inf`/`infinity`/`nan` and digit-group underscores are
outside the data the claims range over and are not modelled. -/

/-- Strip leading and trailing whitespace, as `float()` does. -/
def pyStripChars (l : List Char) : List Char :=
  ((l.dropWhile Char.isWhitespace).reverse.dropWhile Char.isWhitespace).reverse

/-- Numeric value of a digit string. -/
def digitsVal (l : List Char) : ℕ :=
  l.foldl (fun a c => 10 * a + (c.toNat - 48)) 0

/-- Parse an unsigned decimal mantissa (`digits`, `digits.digits`,
`digits.`, or `.digits`), consuming the whole input. -/
def parseDec (l : List Char) : Option ℚ :=
  let ip := l.takeWhile Char.isDigit
  match l.dropWhile Char.isDigit with
  | [] => if ip.isEmpty then none else some (digitsVal ip : ℚ)
  | '.' :: rest2 =>
      if rest2.all Char.isDigit ∧ ¬(ip.isEmpty ∧ rest2.isEmpty) then
        some ((digitsVal ip : ℚ) + (digitsVal rest2 : ℚ) / (10 : ℚ) ^ rest2.length)
      else none
  | _ => none

/-- Parse an optionally signed decimal mantissa. -/
def parseSigned (l : List Char) : Option ℚ :=
  match l with
  | '+' :: rest => parseDec rest
  | '-' :: rest => (parseDec rest).map (fun q => -q)
  | _ => parseDec l

/-- Split at the first exponent marker `e`/`E`, if any. -/
def splitExp : List Char → List Char × Option (List Char)
  | [] => ([], none)
  | c :: rest =>
      if c = 'e' ∨ c = 'E' then ([], some rest)
      else
        let p := splitExp rest
        (c :: p.1, p.2)

/-- Parse an optionally signed exponent. -/
def parseExpPart (l : List Char) : Option ℤ :=
  match l with
  | '+' :: rest =>
      if rest.isEmpty ∨ ¬ rest.all Char.isDigit then none else some (digitsVal rest : ℤ)
  | '-' :: rest =>
      if rest.isEmpty ∨ ¬ rest.all Char.isDigit then none else some (-(digitsVal rest : ℤ))
  | _ => if l.isEmpty ∨ ¬ l.all Char.isDigit then none else some (digitsVal l : ℤ)

/-- Python `float(val)` on the decimal fragment: `some q` when the parse
succeeds, `none` when Python would raise `ValueError`. -/
def pyFloat (s : String) : Option ℚ :=
  let l := pyStripChars s.toList
  match splitExp l with
  | (m, none) => parseSigned m
  | (m, some e) =>
      match parseSigned m, parseExpPart e with
      | some q, some z => some (q * (10 : ℚ) ^ z)
      | _, _ => none

/-! ## Type inference (`detect_column_types`, lines 162-266) -/

/-- The column kinds the engine can produce, plus the `'unknown'` default the
profiler substitutes for a missing descriptor. -/
inductive ColType
  | numeric
  | integer
  | boolean
  | datetime
  | categorical
  | categorical_high
  | mixed
  | empty
  | unknown
deriving DecidableEq

/-- A column type descriptor: kind, confidence, sample count. -/
structure TypeDescriptor where
  kind : ColType
  confidence : ℚ
  sample_count : ℕ
deriving DecidableEq

/-- Python `str(val).strip().lower()`. -/
def normToken (s : String) : List Char :=
  (pyStripChars s.toList).map Char.toLower

/-- The fixed boolean token set of line 193. -/
def boolTokens : List (List Char) :=
  ["true", "false", "yes", "no", "0", "1", "t", "f", "y", "n"].map String.toList

/-- Membership of the normalized value in the boolean token set. -/
def isBoolToken (s : String) : Bool := boolTokens.contains (normToken s)

/-- The datetime heuristic of lines 206-208: length at least 8 and a
date-like separator. -/
def isDateLike (s : String) : Bool :=
  let l := s.toList
  decide (8 ≤ l.length) && (l.contains '-' || l.contains '/' || l.contains '.')

/-- Whether `float(val)` succeeds and the float equals its integer
truncation (`num_val == int(num_val)`), i.e. the rational is integral. -/
def isIntegerValue (s : String) : Bool :=
  match pyFloat s with
  | some q => q.den = 1
  | none => false

/-- The type-inference sample: the non-empty values of the column among the
first `min(100, len(data))` rows, in row order (lines 169-172). -/
def sampleValues (data : List Row) (field : String) : List String :=
  let sample_size := min 100 data.length
  ((data.take sample_size).map (fun r => rowGet r field)).filter (fun v => v ≠ "")

/-- The non-empty values of the whole column in row order (used to compare
the sample against the specification's description of it). -/
def colNonEmptyValues (data : List Row) (field : String) : List String :=
  (data.map (fun r => rowGet r field)).filter (fun v => v ≠ "")

/-- The decision cascade of lines 189-264 on a non-empty sample: counters,
ratios, then the first matching branch. -/
def classifyColumn (sample_values : List String) : TypeDescriptor :=
  let n := sample_values.length
  let boolean_count := (sample_values.filter isBoolToken).length
  let numeric_count := (sample_values.filter (fun v => (pyFloat v).isSome)).length
  let integer_count := (sample_values.filter isIntegerValue).length
  let date_count := (sample_values.filter isDateLike).length
  let numeric_r : ℚ := (numeric_count : ℚ) / n
  let integer_r : ℚ := (integer_count : ℚ) / n
  let date_r : ℚ := (date_count : ℚ) / n
  let boolean_r : ℚ := (boolean_count : ℚ) / n
  if boolean_r > 9/10 then ⟨ColType.boolean, boolean_r, n⟩
  else if date_r > 8/10 then ⟨ColType.datetime, date_r, n⟩
  else if integer_r > 9/10 then ⟨ColType.integer, integer_r, n⟩
  else if numeric_r > 8/10 then ⟨ColType.numeric, numeric_r, n⟩
  else if numeric_r > 3/10 then ⟨ColType.mixed, 1/2, n⟩
  else
    let unique_count := sample_values.dedup.length
    let card : ℚ := (unique_count : ℚ) / n
    if card > 9/10 then ⟨ColType.categorical_high, 1 - numeric_r, n⟩
    else ⟨ColType.categorical, 1 - numeric_r, n⟩

/-- Descriptor and advisory warnings for a single column: an empty sample
yields the `empty` descriptor and a warning, a mixed classification yields
its warning, every other branch is silent. -/
def detectColumn (data : List Row) (field : String) : TypeDescriptor × List String :=
  let sample := sampleValues data field
  if sample.isEmpty then
    (⟨ColType.empty, 1, 0⟩, ["Column " ++ field ++ " is empty"])
  else
    let d := classifyColumn sample
    (d, if d.kind = ColType.mixed then ["Column " ++ field ++ " has mixed types"] else [])

/-- Embeds `detect_column_types`: descriptors in field order plus the accumulated
advisory warnings; empty data yields empty results (lines 164-165). -/
def detect_column_types (data : List Row) (fieldnames : List String) :
    List (String × TypeDescriptor) × List String :=
  if data.isEmpty then ([], [])
  else
    fieldnames.foldl
      (fun acc field =>
        let r := detectColumn data field
        (acc.1 ++ [(field, r.1)], acc.2 ++ r.2))
      ([], [])

/-! ## Statistical profiler (`calculate_statistics`, lines 337-439)

The numeric branch's `std_dev` and `skewness` involve a real square root
(`variance ** 0.5`); no claim mentions them and they are left out of the
rational-valued profile, which keeps every field exactly computable. -/

/-- Python `min(list)` on a non-empty list (the `[]` case is never reached
behind the `if numeric_values:` guard). -/
def pyListMin : List ℚ → ℚ
  | [] => 0
  | x :: xs => xs.foldl Min.min x

/-- Python `max(list)` on a non-empty list. -/
def pyListMax : List ℚ → ℚ
  | [] => 0
  | x :: xs => xs.foldl Max.max x

/-- The numeric column profile of lines 393-412 (minus the square-root
statistics, see above). -/
structure NumProfile where
  count : ℕ
  min : ℚ
  max : ℚ
  range : ℚ
  mean : ℚ
  median : ℚ
  variance : ℚ
  p5 : ℚ
  q1 : ℚ
  q3 : ℚ
  p95 : ℚ
  iqr : ℚ
  outliers : ℕ
  extreme_outliers : ℕ
  confidence : ℚ
deriving DecidableEq

/-- The numeric statistics computation of lines 367-412: population mean and
variance, order statistics from a full ascending sort with truncated
percentile indices, IQR outlier counts at 1.5·IQR and 3·IQR. -/
def numericProfile (numeric_values : List ℚ) (confidence : ℚ) : NumProfile :=
  let n := numeric_values.length
  let mean_val := numeric_values.sum / (n : ℚ)
  let variance := (numeric_values.map (fun x => (x - mean_val) ^ 2)).sum / (n : ℚ)
  let sorted_vals := List.insertionSort (· ≤ ·) numeric_values
  let p5 := sorted_vals.getD (5 * n / 100) 0
  let q1 := sorted_vals.getD (n / 4) 0
  let median := sorted_vals.getD (n / 2) 0
  let q3 := sorted_vals.getD (3 * n / 4) 0
  let p95 := sorted_vals.getD (95 * n / 100) 0
  let iqr := q3 - q1
  let outlier_count :=
    (numeric_values.filter (fun v => v < q1 - 3/2 * iqr ∨ v > q3 + 3/2 * iqr)).length
  let extreme_outlier_count :=
    (numeric_values.filter (fun v => v < q1 - 3 * iqr ∨ v > q3 + 3 * iqr)).length
  { count := n
    min := pyListMin numeric_values
    max := pyListMax numeric_values
    range := pyListMax numeric_values - pyListMin numeric_values
    mean := mean_val
    median := median
    variance := variance
    p5 := p5
    q1 := q1
    q3 := q3
    p95 := p95
    iqr := iqr
    outliers := outlier_count
    extreme_outliers := extreme_outlier_count
    confidence := confidence }

/-- The categorical column profile of lines 424-431. -/
structure CatProfile where
  unique_count : ℕ
  cardinality : ℚ
  top_values : List (String × ℕ × ℚ)
  confidence : ℚ
deriving DecidableEq

/-- Frequency counts in first-seen order, as a Python dict built by
incrementing accumulates them. -/
def firstSeenCounts (values : List String) : List (String × ℕ) :=
  values.foldl
    (fun acc v =>
      if acc.any (fun p => p.1 == v) then
        acc.map (fun p => if p.1 == v then (p.1, p.2 + 1) else p)
      else acc ++ [(v, 1)])
    []

/-- The categorical branch of lines 415-431: distinct non-missing values,
cardinality over the full value list, top 10 by count (stable descending
sort preserves first-seen order among ties), percentages over all rows. -/
def catProfile (data_len : ℕ) (values : List String) (confidence : ℚ) : CatProfile :=
  let nonEmptyVals := values.filter (fun v => v ≠ "")
  let unique_count := nonEmptyVals.dedup.length
  let value_counts := firstSeenCounts nonEmptyVals
  let top_values := (List.insertionSort (fun a b => b.2 < a.2) value_counts).take 10
  { unique_count := unique_count
    cardinality := if values.length > 0 then (unique_count : ℚ) / (values.length : ℚ) else 0
    top_values := top_values.map (fun p => (p.1, p.2, (p.2 : ℚ) / (data_len : ℚ) * 100))
    confidence := confidence }

/-- One entry of `stats['columns']`: the numeric arm, the degenerate
`{'type': t, 'count': 0}` arm, or the categorical arm, each carrying the
stored `'type'` string. -/
inductive ColProfile
  | numeric (t : ColType) (p : NumProfile)
  | emptyNumeric (t : ColType)
  | categorical (t : ColType) (c : CatProfile)
deriving DecidableEq

/-- The `'type'` stored in a column entry. -/
def ColProfile.colType : ColProfile → ColType
  | .numeric t _ => t
  | .emptyNumeric t => t
  | .categorical t _ => t

/-- Reads `col.get('count', 0)`. -/
def ColProfile.countD : ColProfile → ℕ
  | .numeric _ p => p.count
  | .emptyNumeric _ => 0
  | .categorical _ _ => 0

/-- Reads `col.get('outliers', 0)`. -/
def ColProfile.outliersD : ColProfile → ℕ
  | .numeric _ p => p.outliers
  | .emptyNumeric _ => 0
  | .categorical _ _ => 0

/-- Reads `column_types.get(field, {})` followed by the `'type'`/`'confidence'`
defaults of lines 356 and 411/430. -/
def lookupTypeInfo (cts : List (String × TypeDescriptor)) (field : String) : ColType × ℚ :=
  match cts.find? (fun p => p.1 == field) with
  | some p => (p.2.kind, p.2.confidence)
  | none => (ColType.unknown, 0)

/-- The per-field body of the `for field in fieldnames` loop of
`calculate_statistics`: the column entry and the missing-value count. -/
def columnStat (data : List Row) (cts : List (String × TypeDescriptor)) (field : String) :
    ColProfile × ℕ :=
  let values := data.map (fun r => rowGet r field)
  let missing := (values.filter (fun v => v = "")).length
  let ti := lookupTypeInfo cts field
  if ti.1 = ColType.numeric ∨ ti.1 = ColType.integer then
    let numeric_values := values.filterMap (fun v => if v = "" then none else pyFloat v)
    if numeric_values.isEmpty then (ColProfile.emptyNumeric ti.1, missing)
    else (ColProfile.numeric ti.1 (numericProfile numeric_values ti.2), missing)
  else (ColProfile.categorical ti.1 (catProfile data.length values ti.2), missing)

/-- The profiler's result record (the fields of `stats` the claims range
over). -/
structure StatsResult where
  total_records : ℕ
  columns : List (String × ColProfile)
  missing_values : List (String × ℕ)
  quality_score : ℚ
deriving DecidableEq

/-- Embeds `calculate_statistics`: per-column entries and missing counts in field
order, and the overall quality score `1 - total_missing / total_cells`
(lines 433-437; zero when there are no columns or no cells). -/
def calculate_statistics (data : List Row) (fieldnames : List String)
    (cts : List (String × TypeDescriptor)) : StatsResult :=
  if data.isEmpty then ⟨data.length, [], [], 0⟩
  else
    let cols := fieldnames.map (fun f => (f, (columnStat data cts f).1))
    let miss := fieldnames.map (fun f => (f, (columnStat data cts f).2))
    let total_cells := data.length * cols.length
    let total_missing := (miss.map (fun p => p.2)).sum
    let qs : ℚ :=
      if 0 < cols.length ∧ 0 < total_cells then 1 - (total_missing : ℚ) / (total_cells : ℚ)
      else 0
    ⟨data.length, cols, miss, qs⟩

/-! ## Threshold validator (`validate_data`, lines 442-507)

The validator is a pure function of the row count, the profiler result, the
`data_quality` thresholds, and the advisory issue list prepared by
`validate_numeric_ranges`.  Message texts carry formatted numbers in the
script; the embedding keeps fixed descriptive texts, since the claims range
over the levels and the verdict. -/

/-- Message severity levels. -/
inductive Level
  | info
  | warning
  | error
deriving DecidableEq

/-- The `data_quality` threshold group with its defaults applied
(lines 450-453). -/
structure DqConfig where
  min_completeness : ℚ
  min_sample_size : ℕ
  max_outlier_ratio : ℚ
deriving DecidableEq

/-- Embeds `validate_data`: empty data short-circuits to `(False, [])`; otherwise
the required sample-size and completeness checks set the verdict, the
outlier-ratio check (run only when numeric records exist) and the advisory
issues only append messages. -/
def validate_data (data_len : ℕ) (stats : StatsResult) (cfg : DqConfig)
    (validation_issues : List String) : Bool × List (Level × String) :=
  if data_len = 0 then (false, [])
  else
    let pass1 : Bool := decide (cfg.min_sample_size ≤ data_len)
    let msgs1 : List (Level × String) :=
      if data_len < cfg.min_sample_size then [(Level.warning, "Sample size below minimum")]
      else [(Level.info, "Sample size adequate")]
    let pass2 : Bool := decide (cfg.min_completeness ≤ stats.quality_score)
    let msgs2 : List (Level × String) :=
      if cfg.min_completeness ≤ stats.quality_score then
        [(Level.info, "Data quality meets threshold")]
      else [(Level.error, "Data quality below threshold")]
    let numCols := (stats.columns.map (fun p => p.2)).filter
      (fun c => c.colType = ColType.numeric ∨ c.colType = ColType.integer)
    let total_outliers := (numCols.map ColProfile.outliersD).sum
    let numeric_records := (numCols.map ColProfile.countD).sum
    let msgs3 : List (Level × String) :=
      if 0 < numeric_records then
        if (total_outliers : ℚ) / (numeric_records : ℚ) ≤ cfg.max_outlier_ratio then
          [(Level.info, "Outlier check passed")]
        else [(Level.warning, "High outlier count")]
      else []
    let msgs4 := validation_issues.map (fun s => (Level.warning, s))
    (pass1 && pass2, msgs1 ++ msgs2 ++ msgs3 ++ msgs4)

/-- The profiling-and-validation pipeline in dependency order: type
inference, then statistical profiling over the inferred descriptors, then
validation.  The advisory issue list is an input prepared by the caller
(`validate_numeric_ranges`). -/
def run_pipeline (data : List Row) (fieldnames : List String) (cfg : DqConfig)
    (issues : List String) :
    (List (String × TypeDescriptor) × List String) × StatsResult ×
      (Bool × List (Level × String)) :=
  let ct := detect_column_types data fieldnames
  let st := calculate_statistics data fieldnames ct.1
  (ct, st, validate_data data.length st cfg issues)

/-! Concrete inputs for the profiling claims. -/

/-- The Scenario 1 table: three rows for column `a` with values
`1`, `2`, `x`. -/
def dataScenario1 : List Row := [[("a", "1")], [("a", "2")], [("a", "x")]]

/-- A 101-row table whose first row has an empty value for column `a` and
whose remaining 100 rows carry the value `v`. -/
def dataLateValues : List Row :=
  [("a", "")] :: List.replicate 100 [("a", "v")]

/-- A green capsule whose timestamp precedes `capPending`'s. -/
def capGreenEarly : CapsuleDict :=
  ⟨some "c1", some "2025-01-01T00:00:00Z", some "green", some "h2", ∅⟩

/-! ## Merge lemmas -/

/-- The code's conflict resolution coincides with the specification's
winner step. -/
theorem resolveEntry_eq_specWinnerStep : resolveEntry = specWinnerStep := rfl

/-- Folding `merge_step` from an arbitrary index, observed at one id, is the
winner fold over the items carrying that id. -/
theorem merge_foldl_eq (l : List MergeItem) :
    ∀ (m : String → Option Entry) (cid : String),
      (l.foldl merge_step m) cid
        = foldWinnerFrom (m cid) (l.filter (fun it => itemCid it = cid)) := by
  induction l with
  | nil => intro m cid; simp [foldWinnerFrom]
  | cons it l ih =>
      intro m cid
      by_cases h : itemCid it = cid
      · subst h
        have hfilter : List.filter (fun x => decide (itemCid x = itemCid it)) (it :: l)
            = it :: List.filter (fun x => decide (itemCid x = itemCid it)) l := by
          simp [List.filter_cons]
        simp only [List.foldl_cons, hfilter]
        rw [ih]
        have hstep : (merge_step m it) (itemCid it)
            = (match m (itemCid it) with
               | none => some (mkEntry it)
               | some w => some (specWinnerStep w it)) := by
          cases hm : m (itemCid it) <;>
            simp [merge_step, hm, resolveEntry_eq_specWinnerStep]
        rw [hstep]
        cases hm : m (itemCid it) <;> simp [foldWinnerFrom]
      · have hfilter : List.filter (fun x => decide (itemCid x = cid)) (it :: l)
            = List.filter (fun x => decide (itemCid x = cid)) l := by
          simp [List.filter_cons, h]
        simp only [List.foldl_cons, hfilter]
        rw [ih]
        have hstep : (merge_step m it) cid = m cid := by
          cases hm : m (itemCid it) <;> simp [merge_step, hm, Ne.symm h, h]
        rw [hstep]

/-- Starting the winner fold from an empty accumulator is exactly the
specification's per-identifier merge. -/
theorem foldWinnerFrom_none (l : List MergeItem) :
    foldWinnerFrom none l = specMergePerId l := by
  cases l with
  | nil => rfl
  | cons it rest =>
      show foldWinnerFrom (some (mkEntry it)) rest = _
      induction rest generalizing it with
      | nil => rfl
      | cons b bs ih => exact ih ⟨(specWinnerStep (mkEntry it) b).capsule, _, _⟩

/-- C3: folding admitted capsule records in order behaves, per identifier,
exactly as the specification describes: the first record seen wins
unconditionally; a later record replaces the winner entirely when its status
is green and the winner's is not, otherwise when its `timestamp_utc`
lexicographically precedes the winner's; otherwise the winner is kept and
only its tags become the union of both records' tags. -/
theorem C3_merge_per_id (l : List MergeItem) (cid : String) :
    merge_capsules l cid = specMergePerId (l.filter (fun it => itemCid it = cid)) := by
  unfold merge_capsules
  rw [merge_foldl_eq, foldWinnerFrom_none]

/-- C8: when every record carrying an identifier fails the admission filter
(in particular when a sole record for the identifier misses one of
`capsule_id`, `timestamp_utc`, `status`, `hash`), the Master Index has no
entry for that identifier; the pipeline is a total function, so no error is
raised. -/
theorem C8_admission_filter (l : List MergeItem) (cid : String)
    (h : ∀ it ∈ l, itemCid it = cid → validate_schema it.1 = false) :
    build_master_index l cid = none := by
  unfold build_master_index merge_capsules
  rw [merge_foldl_eq]
  have hnil : (l.filter (fun it => validate_schema it.1)).filter
      (fun it => itemCid it = cid) = [] := by
    rw [List.filter_eq_nil_iff]
    intro it hit
    have h1 := (List.mem_filter.mp hit).1
    have h2 := (List.mem_filter.mp hit).2
    intro hc
    have := h it h1 (by simpa using hc)
    simp [this] at h2
  rw [hnil]
  rfl

/-- Witness for C8 at the Scenario 4 record: a sole capsule missing `hash`
is absent from the Master Index. -/
theorem C8_witness :
    (∀ it ∈ [(capNoHash, "repoB", "pathB")], itemCid it = "c1" →
        validate_schema it.1 = false) ∧
      build_master_index [(capNoHash, "repoB", "pathB")] "c1" = none := by
  refine ⟨by decide, C8_admission_filter _ _ (by decide)⟩

/-- Counterexample to C1: for the Scenario 3 pair (pending at an earlier
timestamp, green at a later one) the fold order green-then-pending leaves
the pending record in the Master Index, while pending-then-green leaves the
green one — the surviving record is not the green record regardless of
order. -/
theorem C1_counterexample :
    (merge_capsules [itemGreen, itemPending] "c1").map (fun e => e.capsule.status)
        = some (some "pending") ∧
      (merge_capsules [itemPending, itemGreen] "c1").map (fun e => e.capsule.status)
        = some (some "green") := by
  constructor <;> rfl

/-- C1 (amended): winner selection for a green/non-green pair with one
identifier is order-independent exactly when the non-green record's
timestamp does not lexicographically precede the green record's; in that
case both fold orders leave a record with the green record's status,
timestamp, hash and id in the Master Index (tags may differ by the
order-dependent union).  When the non-green record's timestamp strictly
precedes the green's, the green-first order lets the non-green record win
(see the counterexample above). -/
theorem C1_amended_winner (a b : CapsuleDict) (ra pa rb pb c : String)
    (ha : a.capsule_id = some c) (hb : b.capsule_id = some c)
    (hga : a.status = some "green") (hgb : b.status.getD "" ≠ "green")
    (hts : pyStrLt (b.timestamp_utc.getD "") (a.timestamp_utc.getD "") = false) :
    ((merge_capsules [(a, ra, pa), (b, rb, pb)] c).map
        (fun e => (e.capsule.status, e.capsule.timestamp_utc, e.capsule.hash,
          e.capsule.capsule_id, e.source_repo, e.manifest_path))
        = some (a.status, a.timestamp_utc, a.hash, a.capsule_id, ra, pa)) ∧
      merge_capsules [(b, rb, pb), (a, ra, pa)] c = some (mkEntry (a, ra, pa)) := by
  have hcid_a : itemCid (a, ra, pa) = c := by simp [itemCid, ha]
  have hcid_b : itemCid (b, rb, pb) = c := by simp [itemCid, hb]
  have h1 : merge_capsules [(a, ra, pa), (b, rb, pb)] c
      = some (resolveEntry (mkEntry (a, ra, pa)) (b, rb, pb)) := by
    simp [merge_capsules, merge_step, hcid_a, hcid_b]
  have h2 : merge_capsules [(b, rb, pb), (a, ra, pa)] c
      = some (resolveEntry (mkEntry (b, rb, pb)) (a, ra, pa)) := by
    simp [merge_capsules, merge_step, hcid_a, hcid_b]
  have hr1 : resolveEntry (mkEntry (a, ra, pa)) (b, rb, pb)
      = ⟨⟨a.capsule_id, a.timestamp_utc, a.status, a.hash, a.tags ∪ b.tags⟩, ra, pa⟩ := by
    simp [resolveEntry, mkEntry, hgb, hts]
  have hr2 : resolveEntry (mkEntry (b, rb, pb)) (a, ra, pa) = mkEntry (a, ra, pa) := by
    simp [resolveEntry, mkEntry, hga, hgb]
  rw [h1, h2, hr1, hr2]
  exact ⟨rfl, rfl⟩

/-- Witness for the amended C1 at a concrete pair: green at the earlier
timestamp, pending at the later one — the green record's core fields
survive under both fold orders. -/
theorem C1_amended_witness :
    (capGreenEarly.capsule_id = some "c1" ∧ capPending.capsule_id = some "c1" ∧
        capGreenEarly.status = some "green" ∧ capPending.status.getD "" ≠ "green" ∧
        pyStrLt (capPending.timestamp_utc.getD "")
          (capGreenEarly.timestamp_utc.getD "") = false) ∧
      (((merge_capsules [(capGreenEarly, "repoA", "pathA"),
            (capPending, "repoB", "pathB")] "c1").map
          (fun e => (e.capsule.status, e.capsule.timestamp_utc, e.capsule.hash,
            e.capsule.capsule_id, e.source_repo, e.manifest_path))
          = some (capGreenEarly.status, capGreenEarly.timestamp_utc, capGreenEarly.hash,
            capGreenEarly.capsule_id, "repoA", "pathA")) ∧
        merge_capsules [(capPending, "repoB", "pathB"),
            (capGreenEarly, "repoA", "pathA")] "c1"
          = some (mkEntry (capGreenEarly, "repoA", "pathA"))) :=
  ⟨⟨by decide, by decide, by decide, by decide, by decide⟩,
    C1_amended_winner capGreenEarly capPending "repoA" "pathA" "repoB" "pathB" "c1"
      (by decide) (by decide) (by decide) (by decide) (by decide)⟩

/-! ## Validator claims -/

/-- C10: on an empty row sequence the validator returns verdict fail with an
empty message list — no check runs, no message of any level is produced, and
(the embedding being a total function) no exception is raised. -/
theorem C10_empty_validate (stats : StatsResult) (cfg : DqConfig)
    (issues : List String) :
    validate_data 0 stats cfg issues = (false, []) := rfl

/-- C2: for non-empty data the verdict passes iff both required checks pass
(row count at least `min_sample_size` and quality score at least
`min_completeness`); everything after the two required-check messages — the
outlier-ratio message and the domain-range issue messages — is at severity
info or warning, never error, and does not enter the verdict. -/
theorem C2_required_checks (n : ℕ) (stats : StatsResult) (cfg : DqConfig)
    (issues : List String) (h : 0 < n) :
    ((validate_data n stats cfg issues).1 = true
        ↔ cfg.min_sample_size ≤ n ∧ cfg.min_completeness ≤ stats.quality_score) ∧
      ∀ m ∈ (validate_data n stats cfg issues).2.drop 2, m.1 ≠ Level.error := by
  have hn : ¬ n = 0 := Nat.pos_iff_ne_zero.mp h
  constructor
  · simp [validate_data, hn]
  · intro m hm
    simp only [validate_data, hn, if_false] at hm
    by_cases h1 : n < cfg.min_sample_size <;>
      by_cases h2 : cfg.min_completeness ≤ stats.quality_score <;>
      simp only [h1, h2, if_true, if_false, List.cons_append, List.nil_append,
        List.drop_succ_cons, List.drop_zero, List.mem_append] at hm <;>
      [skip; skip; skip; skip] <;>
      · rcases hm with hm3 | hm4
        · split_ifs at hm3 <;>
            simp only [List.mem_singleton, List.not_mem_nil] at hm3 <;>
            simp [hm3]
        · obtain ⟨s, -, rfl⟩ := List.mem_map.mp hm4
          simp

/-- Witness for C2 at the Scenario 2 shape: 120 rows, perfect quality score
and default thresholds. -/
theorem C2_witness :
    0 < 120 ∧
      (((validate_data 120 ⟨120, [], [], 1⟩ ⟨19/20, 100, 1/50⟩ []).1 = true
          ↔ 100 ≤ 120 ∧ (19/20 : ℚ) ≤ (1 : ℚ)) ∧
        ∀ m ∈ (validate_data 120 ⟨120, [], [], 1⟩ ⟨19/20, 100, 1/50⟩ []).2.drop 2,
          m.1 ≠ Level.error) :=
  ⟨by decide, C2_required_checks 120 ⟨120, [], [], 1⟩ ⟨19/20, 100, 1/50⟩ [] (by decide)⟩

/-! ## Type-inference sample claims -/

/-- Counterexample to C5: a 101-row column whose first row is empty and
whose later 100 rows are non-empty has 100 non-empty values in the whole
column, yet the type-inference sample holds only 99 values — the sample is
drawn from the first 100 rows, not from the first 100 non-empty values. -/
theorem C5_counterexample :
    (colNonEmptyValues dataLateValues "a").length = 100 ∧
      (sampleValues dataLateValues "a").length = 99 := by
  constructor <;> rfl

/-- C5 (amended): the type-inference sample consists of the non-empty values
among the first `min(100, row_count)` rows in row order; it is an initial
segment of the column's non-empty value sequence and holds at most 100
values, but it can hold fewer than 100 non-empty values even when the whole
column has at least 100 (see the counterexample above). -/
theorem C5_amended_sample (data : List Row) (field : String) :
    (sampleValues data field).length ≤ 100 ∧
      ∃ rest, colNonEmptyValues data field = sampleValues data field ++ rest := by
  have htake : data.take (min 100 data.length) = data.take 100 := by
    rcases le_total 100 data.length with h | h
    · rw [Nat.min_eq_left h]
    · rw [Nat.min_eq_right h, List.take_length, List.take_of_length_le h]
  constructor
  · unfold sampleValues
    have h1 := List.length_filter_le (fun v => decide (v ≠ ""))
      ((data.take (min 100 data.length)).map (fun r => rowGet r field))
    have h2 : ((data.take (min 100 data.length)).map (fun r => rowGet r field)).length
        ≤ 100 := by
      rw [List.length_map, List.length_take]
      omega
    exact le_trans h1 h2
  · refine ⟨((data.map (fun r => rowGet r field)).drop 100).filter
      (fun v => v ≠ ""), ?_⟩
    simp only [colNonEmptyValues, sampleValues]
    rw [htake, List.map_take, ← List.filter_append, List.take_append_drop]

/-! ## Categorical cardinality claims -/

/-- Counterexample to C6: for a two-row column with one missing and one
non-missing value, the profiler reports cardinality 1/2 (unique count over
all rows), not 1/1 (unique count over the non-missing rows) as the claim
states. -/
theorem C6_counterexample :
    (catProfile 2 ["x", ""] 1).unique_count = 1 ∧
      ((["x", ""].filter (fun v => v ≠ "")).length = 1) ∧
      (catProfile 2 ["x", ""] 1).cardinality ≠ (1 : ℚ) / 1 := by
  refine ⟨rfl, rfl, ?_⟩
  have h1 : (catProfile 2 ["x", ""] 1).cardinality = ((1 : ℕ) : ℚ) / ((2 : ℕ) : ℚ) := rfl
  rw [h1]
  norm_num

/-- C6 (amended): the reported cardinality equals the column's unique count
divided by the total number of rows, so for every non-empty value list
cardinality × row_count = unique_count. -/
theorem C6_amended_cardinality (data_len : ℕ) (values : List String) (conf : ℚ)
    (h : values ≠ []) :
    (catProfile data_len values conf).cardinality * (values.length : ℚ)
      = ((catProfile data_len values conf).unique_count : ℚ) := by
  have hl : 0 < values.length := List.length_pos.mpr h
  have hq : ((values.length : ℚ)) ≠ 0 := by exact_mod_cast hl.ne'
  simp only [catProfile, hl, if_true]
  rw [div_mul_cancel₀ _ hq]

/-- Witness for the amended C6 at the counterexample column. -/
theorem C6_amended_witness :
    (["x", ""] : List String) ≠ [] ∧
      (catProfile 2 ["x", ""] 1).cardinality * ((["x", ""] : List String).length : ℚ)
        = ((catProfile 2 ["x", ""] 1).unique_count : ℚ) :=
  ⟨by simp, C6_amended_cardinality 2 ["x", ""] 1 (by simp)⟩

/-! ## Pipeline determinism -/

/-- C9: the profiling-and-validation pipeline is a pure function of the row
table, the field names, the thresholds, and the advisory issue list — two
runs on equal inputs produce equal type descriptors, advisory warnings,
column profiles, verdicts and message sequences; no clock or randomness
enters the embedding. -/
theorem C9_pipeline_deterministic (d1 d2 : List Row) (f1 f2 : List String)
    (c1 c2 : DqConfig) (i1 i2 : List String)
    (hd : d1 = d2) (hf : f1 = f2) (hc : c1 = c2) (hi : i1 = i2) :
    run_pipeline d1 f1 c1 i1 = run_pipeline d2 f2 c2 i2 := by
  subst hd; subst hf; subst hc; subst hi; rfl

/-- Witness for C9 at the Scenario 1 table. -/
theorem C9_witness :
    (dataScenario1 = dataScenario1 ∧ (["a"] : List String) = ["a"] ∧
        (⟨19/20, 100, 1/50⟩ : DqConfig) = ⟨19/20, 100, 1/50⟩ ∧
        ([] : List String) = []) ∧
      run_pipeline dataScenario1 ["a"] ⟨19/20, 100, 1/50⟩ []
        = run_pipeline dataScenario1 ["a"] ⟨19/20, 100, 1/50⟩ [] :=
  ⟨⟨rfl, rfl, rfl, rfl⟩,
    C9_pipeline_deterministic dataScenario1 dataScenario1 ["a"] ["a"]
      ⟨19/20, 100, 1/50⟩ ⟨19/20, 100, 1/50⟩ [] [] rfl rfl rfl rfl⟩

/-! ## Scenario 1 type inference -/

/-- C7: on the table `[row a=1, row a=2, row a=x]` the engine samples three
values of which two parse as floats; the numeric ratio 2/3 passes neither
the integer nor the numeric gate but passes the mixed gate, so column `a`
is classified mixed with confidence exactly 1/2 and exactly one advisory
warning is emitted. -/
theorem C7_scenario_mixed :
    detect_column_types dataScenario1 ["a"]
      = ([("a", ⟨ColType.mixed, 1/2, 3⟩)], ["Column a has mixed types"]) := by
  have hsample : sampleValues dataScenario1 "a" = ["1", "2", "x"] := rfl
  have h0 : (["1", "2", "x"] : List String).length = 3 := rfl
  have h1 : ((["1", "2", "x"] : List String).filter isBoolToken).length = 1 := rfl
  have h2 : ((["1", "2", "x"] : List String).filter
      (fun v => (pyFloat v).isSome)).length = 2 := rfl
  have h3 : ((["1", "2", "x"] : List String).filter isIntegerValue).length = 2 := rfl
  have h4 : ((["1", "2", "x"] : List String).filter isDateLike).length = 0 := rfl
  have hclass : classifyColumn ["1", "2", "x"] = ⟨ColType.mixed, 1/2, 3⟩ := by
    simp only [classifyColumn, h0, h1, h2, h3, h4]
    norm_num
  have happ : "Column " ++ "a" ++ " has mixed types" = "Column a has mixed types" := rfl
  have hdet : detectColumn dataScenario1 "a"
      = (⟨ColType.mixed, 1/2, 3⟩, ["Column a has mixed types"]) := by
    simp only [detectColumn, hsample, hclass, happ]
    norm_num
  have hne : dataScenario1 ≠ [] := by simp [dataScenario1]
  simp [detect_column_types, hdet, hne]

/-! ## Order-statistics invariant -/

/-- A left fold with `min` is below its seed and below every list element
(Python's `min` on a non-empty list). -/
theorem foldl_min_le (xs : List ℚ) :
    ∀ a : ℚ, xs.foldl Min.min a ≤ a ∧ ∀ x ∈ xs, xs.foldl Min.min a ≤ x := by
  induction xs with
  | nil =>
      intro a
      exact ⟨le_refl a, by intro x hx; exact absurd hx (List.not_mem_nil x)⟩
  | cons b xs ih =>
      intro a
      refine ⟨le_trans (ih (min a b)).1 (min_le_left a b), ?_⟩
      intro x hx
      rcases List.mem_cons.mp hx with rfl | hx
      · exact le_trans (ih (min a x)).1 (min_le_right a x)
      · exact (ih (min a b)).2 x hx

/-- A left fold with `max` is above its seed and above every list element. -/
theorem le_foldl_max (xs : List ℚ) :
    ∀ a : ℚ, a ≤ xs.foldl Max.max a ∧ ∀ x ∈ xs, x ≤ xs.foldl Max.max a := by
  induction xs with
  | nil =>
      intro a
      exact ⟨le_refl a, by intro x hx; exact absurd hx (List.not_mem_nil x)⟩
  | cons b xs ih =>
      intro a
      refine ⟨le_trans (le_max_left a b) (ih (max a b)).1, ?_⟩
      intro x hx
      rcases List.mem_cons.mp hx with rfl | hx
      · exact le_trans (le_max_right a x) (ih (max a x)).1
      · exact (ih (max a b)).2 x hx

/-- Function `pyListMin` bounds every member from below. -/
theorem pyListMin_le {l : List ℚ} {x : ℚ} (hx : x ∈ l) : pyListMin l ≤ x := by
  cases l with
  | nil => exact absurd hx (List.not_mem_nil x)
  | cons a xs =>
      rcases List.mem_cons.mp hx with rfl | hx
      · exact (foldl_min_le xs x).1
      · exact (foldl_min_le xs a).2 x hx

/-- Function `pyListMax` bounds every member from above. -/
theorem le_pyListMax {l : List ℚ} {x : ℚ} (hx : x ∈ l) : x ≤ pyListMax l := by
  cases l with
  | nil => exact absurd hx (List.not_mem_nil x)
  | cons a xs =>
      rcases List.mem_cons.mp hx with rfl | hx
      · exact (le_foldl_max xs x).1
      · exact (le_foldl_max xs a).2 x hx

/-- Reading `getD` on a sorted list is monotone in the index. -/
theorem sorted_getD_mono {l : List ℚ} (hs : List.Sorted (· ≤ ·) l) {i j : ℕ}
    (hij : i ≤ j) (hj : j < l.length) : l.getD i 0 ≤ l.getD j 0 := by
  have hi : i < l.length := lt_of_le_of_lt hij hj
  rw [List.getD_eq_getElem l 0 hi, List.getD_eq_getElem l 0 hj]
  have hfin : (⟨i, hi⟩ : Fin l.length) ≤ ⟨j, hj⟩ := hij
  have := hs.rel_get_of_le hfin
  simpa [List.get_eq_getElem] using this

/-- Reading `getD` at an in-range index is a member of the list. -/
theorem getD_mem_of_lt {l : List ℚ} {i : ℕ} (hi : i < l.length) : l.getD i 0 ∈ l := by
  rw [List.getD_eq_getElem l 0 hi]
  exact List.getElem_mem hi

/-- Values outside the 3·IQR band are outside the 1.5·IQR band, so the
extreme count never exceeds the outlier count. -/
theorem filter_band_mono (l : List ℚ) (q1v q3v iqrv : ℚ) (hiqr : 0 ≤ iqrv) :
    (l.filter (fun v => v < q1v - 3 * iqrv ∨ v > q3v + 3 * iqrv)).length
      ≤ (l.filter (fun v => v < q1v - 3/2 * iqrv ∨ v > q3v + 3/2 * iqrv)).length := by
  rw [← List.countP_eq_length_filter, ← List.countP_eq_length_filter]
  apply List.countP_mono_left
  intro v hv hpe
  rw [decide_eq_true_eq] at hpe ⊢
  rcases hpe with h1 | h1
  · left; linarith
  · right; linarith

/-- C4: for every numeric or integer column with at least one parsed value,
the profile's order statistics are monotone
(min ≤ p5 ≤ q1 ≤ median ≤ q3 ≤ p95 ≤ max), the IQR equals q3 − q1 and is
non-negative, and the extreme outliers (3·IQR band) never outnumber the
outliers (1.5·IQR band). -/
theorem C4_order_stats (values : List ℚ) (conf : ℚ) (h : values ≠ []) :
    (numericProfile values conf).min ≤ (numericProfile values conf).p5 ∧
      (numericProfile values conf).p5 ≤ (numericProfile values conf).q1 ∧
      (numericProfile values conf).q1 ≤ (numericProfile values conf).median ∧
      (numericProfile values conf).median ≤ (numericProfile values conf).q3 ∧
      (numericProfile values conf).q3 ≤ (numericProfile values conf).p95 ∧
      (numericProfile values conf).p95 ≤ (numericProfile values conf).max ∧
      (numericProfile values conf).iqr
        = (numericProfile values conf).q3 - (numericProfile values conf).q1 ∧
      0 ≤ (numericProfile values conf).iqr ∧
      (numericProfile values conf).extreme_outliers
        ≤ (numericProfile values conf).outliers := by
  have hnpos : 0 < values.length := List.length_pos.mpr h
  have hperm : (List.insertionSort (· ≤ ·) values).Perm values :=
    List.perm_insertionSort _ values
  have hslen : (List.insertionSort (· ≤ ·) values).length = values.length :=
    hperm.length_eq
  have hsort : List.Sorted (· ≤ ·) (List.insertionSort (· ≤ ·) values) :=
    List.sorted_insertionSort _ values
  have hb5 : 5 * values.length / 100 < (List.insertionSort (· ≤ ·) values).length := by
    rw [hslen]; omega
  have hb25 : values.length / 4 < (List.insertionSort (· ≤ ·) values).length := by
    rw [hslen]; omega
  have hb50 : values.length / 2 < (List.insertionSort (· ≤ ·) values).length := by
    rw [hslen]; omega
  have hb75 : 3 * values.length / 4 < (List.insertionSort (· ≤ ·) values).length := by
    rw [hslen]; omega
  have hb95 : 95 * values.length / 100 < (List.insertionSort (· ≤ ·) values).length := by
    rw [hslen]; omega
  have hq13 : (List.insertionSort (· ≤ ·) values).getD (values.length / 4) 0
      ≤ (List.insertionSort (· ≤ ·) values).getD (3 * values.length / 4) 0 :=
    sorted_getD_mono hsort (by omega) hb75
  refine ⟨?_, ?_, ?_, ?_, ?_, ?_, rfl, ?_, ?_⟩
  · exact pyListMin_le (hperm.mem_iff.mp (getD_mem_of_lt hb5))
  · exact sorted_getD_mono hsort (by omega) hb25
  · exact sorted_getD_mono hsort (by omega) hb50
  · exact sorted_getD_mono hsort (by omega) hb75
  · exact sorted_getD_mono hsort (by omega) hb95
  · exact le_pyListMax (hperm.mem_iff.mp (getD_mem_of_lt hb95))
  · exact sub_nonneg.mpr hq13
  · exact filter_band_mono values
      ((List.insertionSort (· ≤ ·) values).getD (values.length / 4) 0)
      ((List.insertionSort (· ≤ ·) values).getD (3 * values.length / 4) 0)
      ((List.insertionSort (· ≤ ·) values).getD (3 * values.length / 4) 0
        - (List.insertionSort (· ≤ ·) values).getD (values.length / 4) 0)
      (sub_nonneg.mpr hq13)

/-- Witness for C4 at the concrete value list `[1, 2, 3]`. -/
theorem C4_witness :
    ([(1 : ℚ), 2, 3] ≠ []) ∧
      ((numericProfile [(1 : ℚ), 2, 3] 1).min ≤ (numericProfile [(1 : ℚ), 2, 3] 1).p5 ∧
        (numericProfile [(1 : ℚ), 2, 3] 1).p5 ≤ (numericProfile [(1 : ℚ), 2, 3] 1).q1 ∧
        (numericProfile [(1 : ℚ), 2, 3] 1).q1 ≤ (numericProfile [(1 : ℚ), 2, 3] 1).median ∧
        (numericProfile [(1 : ℚ), 2, 3] 1).median ≤ (numericProfile [(1 : ℚ), 2, 3] 1).q3 ∧
        (numericProfile [(1 : ℚ), 2, 3] 1).q3 ≤ (numericProfile [(1 : ℚ), 2, 3] 1).p95 ∧
        (numericProfile [(1 : ℚ), 2, 3] 1).p95 ≤ (numericProfile [(1 : ℚ), 2, 3] 1).max ∧
        (numericProfile [(1 : ℚ), 2, 3] 1).iqr
          = (numericProfile [(1 : ℚ), 2, 3] 1).q3 - (numericProfile [(1 : ℚ), 2, 3] 1).q1 ∧
        0 ≤ (numericProfile [(1 : ℚ), 2, 3] 1).iqr ∧
        (numericProfile [(1 : ℚ), 2, 3] 1).extreme_outliers
          ≤ (numericProfile [(1 : ℚ), 2, 3] 1).outliers) :=
  ⟨by simp, C4_order_stats [(1 : ℚ), 2, 3] 1 (by simp)⟩
